import Mathlib

/-!
Shallow embedding of the lightmigrate-mongodb migration driver
(mongodb/mongodb.go, mongodb/config.go, mongodb/errors.go).

Database interactions are modelled by passing the database's response to each
call as an explicit argument and by recording the list of operations the driver
issues, each tagged with the Go context it was issued under (context.TODO /
context.Background are unbounded; context.WithTimeout carries its duration).
-/

namespace LightMigrateMongo

/-- Nanoseconds in one second, mirroring Go's time.Second constant. -/
def timeSecond : Nat := 1000000000

/-- contextWaitTimeout from config.go: 5 * time.Second, the wait bound used for
the lock insert and lock delete requests. -/
def contextWaitTimeout : Nat := 5 * timeSecond

/-- DefaultMigrationsCollection from config.go. -/
def DefaultMigrationsCollection : String := "schema_migrations"

/-- DefaultLockingCollection from config.go. -/
def DefaultLockingCollection : String := "migrate_advisory_lock"

/-- lockKeyUniqueValue from config.go: the fixed value of the locking_key field. -/
def lockKeyUniqueValue : Int := 0

/-- DefaultLockIndexName from config.go. -/
def DefaultLockIndexName : String := "lock_unique_key"

/-- Go context under which a database request is issued: context.TODO() or
context.Background() are unbounded; context.WithTimeout carries its duration
in nanoseconds. -/
inductive GoContext where
  | todo
  | withTimeout (nanos : Nat)
deriving DecidableEq, Repr

/-- Opaque underlying database error (the error value returned by the mongo
client library), carried around but never inspected by the driver. -/
abbrev DbError := String

/-- Opaque command document (a bson.D element of the parsed migration payload);
the driver never inspects its contents, so it is identified abstractly. -/
abbrev Cmd := Nat

/-- Database operations the driver can issue, with the arguments it passes. -/
inductive DbOpKind where
  | insertLock (coll : String) (key : Int)
  | deleteLocks (coll : String) (key : Int)
  | findVersion (coll : String)
  | dropCollection (coll : String)
  | insertVersion (coll : String) (version : Int) (dirty : Bool)
  | runCommand (cmd : Cmd)
  | startTransaction
  | commitTransaction
  | createLockIndex (coll : String) (index : String)
deriving DecidableEq, Repr

/-- One issued database operation together with the Go context it was issued
under. -/
structure DbOp where
  ctx : GoContext
  kind : DbOpKind
deriving DecidableEq, Repr

/-- Error values the driver returns. Each constructor corresponds to a distinct
Go error: the two sentinels of errors.go, the raw pass-through cases, and one
constructor per distinct DriverError message string of mongodb.go (the message
text is noted on each constructor). -/
inductive Err where
  | noDatabaseName
  | databaseLocked
  | dbError (e : DbError)
  | versionReadFailed (orig : DbError)
  | dropFailed (orig : DbError)
  | saveVersionFailed (orig : DbError)
  | readFailed (orig : DbError)
  | parseError (msg : String)
  | commandFailed (cmd : Cmd) (orig : DbError)
  | startTransactionFailed (orig : DbError)
  | commitFailed (orig : DbError)
deriving DecidableEq, Repr

/-- LockingConfig from config.go. -/
structure LockingConfig where
  collectionName : String := ""
  indexName : String := ""
  enabled : Bool := false
deriving DecidableEq, Repr

/-- config from config.go. -/
structure Config where
  databaseName : String
  migrationsCollection : String
  transactionMode : Bool
  locking : LockingConfig
deriving DecidableEq, Repr

/-- driver from mongodb.go. The mongo client and migDb handles are determined
by the configuration and modelled at the call sites; the logger is irrelevant
to the verified behaviour. lockFlag is the int32 accessed atomically, holding
0 (unlocked) or 1 (locked). -/
structure Driver where
  cfg : Config
  verbose : Bool := false
  lockFlag : Nat := 0
deriving DecidableEq, Repr

/-- Result of a Lock or Unlock call: the returned error (none for nil), the
updated driver state, and the database operations issued during the call. -/
structure LockResult where
  ret : Option Err
  d : Driver
  ops : List DbOp
deriving DecidableEq, Repr

/-- Lock from mongodb.go. insertErr is the outcome of the InsertOne request
(some e when the insert fails, e.g. by the uniqueness constraint). The insert
is issued under context.WithTimeout(context.Background(), contextWaitTimeout);
any insert failure is returned as the ErrDatabaseLocked sentinel. -/
def Driver.lock (d : Driver) (insertErr : Option DbError) : LockResult :=
  if !d.cfg.locking.enabled then ⟨none, d, []⟩
  else if d.lockFlag == 1 then ⟨none, d, []⟩
  else
    let op : DbOp := ⟨GoContext.withTimeout contextWaitTimeout,
      DbOpKind.insertLock d.cfg.locking.collectionName lockKeyUniqueValue⟩
    match insertErr with
    | some _ => ⟨some Err.databaseLocked, d, [op]⟩
    | none => ⟨none, { d with lockFlag := 1 }, [op]⟩

/-- Unlock from mongodb.go. deleteErr is the outcome of the DeleteMany request
that removes every document whose locking_key equals lockKeyUniqueValue; it is
issued under context.WithTimeout(context.Background(), contextWaitTimeout) and
a failure is returned unwrapped. -/
def Driver.unlock (d : Driver) (deleteErr : Option DbError) : LockResult :=
  if !d.cfg.locking.enabled then ⟨none, d, []⟩
  else if d.lockFlag == 0 then ⟨none, d, []⟩
  else
    let op : DbOp := ⟨GoContext.withTimeout contextWaitTimeout,
      DbOpKind.deleteLocks d.cfg.locking.collectionName lockKeyUniqueValue⟩
    match deleteErr with
    | some e => ⟨some (Err.dbError e), d, [op]⟩
    | none => ⟨none, { d with lockFlag := 0 }, [op]⟩

/-- Modelled from the spec: NoMigrationVersion, the NO_VERSION sentinel of the
external lightmigrate library (not part of this repository), returned by
GetVersion when no version document exists; the spec only requires it to be a
defined uint64 value distinct from version zero. -/
def NoMigrationVersion : Nat := 18446744073709551615

/-- Go conversion int64(v) applied to a uint64 value v < 2^64, as performed by
SetVersion when storing the version into the signed bson field. -/
def int64OfUInt64 (v : Nat) : Int :=
  if v < 2 ^ 63 then (v : Int) else (v : Int) - 2 ^ 64

/-- Go conversion uint64(i) applied to an int64 value, as performed by
GetVersion when returning the stored version field. -/
def uint64OfInt64 (i : Int) : Nat :=
  (i % 2 ^ 64).toNat

/-- Outcome of the FindOne().Decode call in GetVersion: the mongo.ErrNoDocuments
sentinel, some other failure, or a decoded version document (whose version
field is a signed 64-bit bson integer). -/
inductive FindOutcome where
  | noDocuments
  | failure (e : DbError)
  | found (version : Int) (dirty : Bool)
deriving DecidableEq, Repr

/-- versionInfo from mongodb.go: the single document of the migrations
collection, with a signed 64-bit version field. -/
structure VersionDoc where
  version : Int
  dirty : Bool
deriving DecidableEq, Repr

/-- Result of a GetVersion call: returned version, dirty flag, error, and the
database operations issued. -/
structure GetVersionResult where
  version : Nat
  dirty : Bool
  err : Option Err
  ops : List DbOp
deriving DecidableEq, Repr

/-- GetVersion from mongodb.go. The FindOne request is issued under
context.TODO(); its outcome is passed in as findRes. -/
def Driver.getVersion (d : Driver) (findRes : FindOutcome) : GetVersionResult :=
  let op : DbOp := ⟨GoContext.todo, DbOpKind.findVersion d.cfg.migrationsCollection⟩
  match findRes with
  | FindOutcome.noDocuments => ⟨NoMigrationVersion, false, none, [op]⟩
  | FindOutcome.failure e => ⟨0, false, some (Err.versionReadFailed e), [op]⟩
  | FindOutcome.found v dirty => ⟨uint64OfInt64 v, dirty, none, [op]⟩

/-- Result of a SetVersion call: returned error, resulting contents of the
migrations collection, and the database operations issued. -/
structure SetVersionResult where
  err : Option Err
  coll : List VersionDoc
  ops : List DbOp
deriving DecidableEq, Repr

/-- SetVersion from mongodb.go: drop the migrations collection, then insert one
new version document. Both requests run under context.TODO(). dropErr and
insertErr are the outcomes of the two requests; coll is the collection's
contents before the call. A failed drop leaves the collection untouched; a
successful drop followed by a failed insert leaves it empty. -/
def Driver.setVersion (d : Driver) (coll : List VersionDoc) (version : Nat)
    (dirty : Bool) (dropErr insertErr : Option DbError) : SetVersionResult :=
  let dropOp : DbOp := ⟨GoContext.todo, DbOpKind.dropCollection d.cfg.migrationsCollection⟩
  match dropErr with
  | some e => ⟨some (Err.dropFailed e), coll, [dropOp]⟩
  | none =>
    let doc : VersionDoc := ⟨int64OfUInt64 version, dirty⟩
    let insOp : DbOp := ⟨GoContext.todo,
      DbOpKind.insertVersion d.cfg.migrationsCollection doc.version doc.dirty⟩
    match insertErr with
    | some e => ⟨some (Err.saveVersionFailed e), [], [dropOp, insOp]⟩
    | none => ⟨none, [doc], [dropOp, insOp]⟩

/-- FindOne on the migrations collection: an empty collection yields the
mongo.ErrNoDocuments outcome, otherwise the first document is decoded. -/
def collFindOne (coll : List VersionDoc) : FindOutcome :=
  match coll with
  | [] => FindOutcome.noDocuments
  | doc :: _ => FindOutcome.found doc.version doc.dirty

/-- DriverOption values from mongodb.go, as data. -/
inductive DriverOption where
  | withLogger
  | withVerboseLogging (verbose : Bool)
  | withMigrationCollection (name : String)
  | withTransactions (transactions : Bool)
  | withLocking (lockConfig : LockingConfig)
deriving DecidableEq, Repr

/-- Application of one DriverOption to the driver under construction, following
the corresponding With... function bodies in mongodb.go. WithLocking fills in
the default collection and index names when they are empty. -/
def applyOption (d : Driver) : DriverOption → Driver
  | DriverOption.withLogger => d
  | DriverOption.withVerboseLogging v => { d with verbose := v }
  | DriverOption.withMigrationCollection n =>
      { d with cfg := { d.cfg with migrationsCollection := n } }
  | DriverOption.withTransactions t =>
      { d with cfg := { d.cfg with transactionMode := t } }
  | DriverOption.withLocking lc =>
      let lc1 := if lc.collectionName == "" then
        { lc with collectionName := DefaultLockingCollection } else lc
      let lc2 := if lc1.indexName == "" then
        { lc1 with indexName := DefaultLockIndexName } else lc1
      { d with cfg := { d.cfg with locking := lc2 } }

/-- Outcome of driver construction: a driver and nil error, a nil driver and an
error, or a nil-pointer dereference inside the mongo library. -/
inductive NewDriverResult where
  | ok (d : Driver)
  | err (e : Err)
  | nilClientDeref
deriving DecidableEq, Repr

/-- NewDriver from mongodb.go. The mongo client argument is modelled by whether
it is nil; prepareErr is the outcome of prepareLockCollection's CreateOne
index request. The function checks only the database name: with a nil client
and a non-empty name it reaches d.client.Database(...), which dereferences the
nil pointer inside the mongo library (newDatabase reads client fields) and
panics instead of returning an error; that outcome is modelled as
nilClientDeref. -/
def NewDriver (clientIsNil : Bool) (database : String) (opts : List DriverOption)
    (prepareErr : Option DbError) : NewDriverResult :=
  if database == "" then NewDriverResult.err Err.noDatabaseName
  else
    let d0 : Driver :=
      { cfg := { databaseName := database
                 migrationsCollection := DefaultMigrationsCollection
                 transactionMode := false
                 locking := {} }
        verbose := false
        lockFlag := 0 }
    let d := opts.foldl applyOption d0
    if clientIsNil then NewDriverResult.nilClientDeref
    else if d.cfg.locking.enabled then
      match prepareErr with
      | some e => NewDriverResult.err (Err.dbError e)
      | none => NewDriverResult.ok d
    else NewDriverResult.ok d

/-- Execution environment of the migration executor: the outcome of RunCommand
for each command document, and the outcomes of StartTransaction and
CommitTransaction. -/
structure ExecEnv where
  runCmd : Cmd → Option DbError
  startErr : Option DbError
  commitErr : Option DbError

/-- executeCommands from mongodb.go: run each command in order via RunCommand,
stopping at the first failure, which is wrapped into a DriverError naming the
failing command. The returned operation list records every RunCommand issued. -/
def executeCommands (env : ExecEnv) (ctx : GoContext) : List Cmd → Option Err × List DbOp
  | [] => (none, [])
  | c :: rest =>
    let op : DbOp := ⟨ctx, DbOpKind.runCommand c⟩
    match env.runCmd c with
    | some e => (some (Err.commandFailed c e), [op])
    | none =>
      let r := executeCommands env ctx rest
      (r.1, op :: r.2)

/-- executeCommandsWithTransaction from mongodb.go: inside one session, start a
transaction, run the commands, and commit. A command failure is returned as-is
with no commit and no abort issued (the comment in the source notes MongoDB
has already aborted the transaction); a commit failure is wrapped into the
distinct commit DriverError. -/
def executeCommandsWithTransaction (env : ExecEnv) (cmds : List Cmd) :
    Option Err × List DbOp :=
  let startOp : DbOp := ⟨GoContext.todo, DbOpKind.startTransaction⟩
  match env.startErr with
  | some e => (some (Err.startTransactionFailed e), [startOp])
  | none =>
    let r := executeCommands env GoContext.todo cmds
    match r.1 with
    | some e => (some e, startOp :: r.2)
    | none =>
      match env.commitErr with
      | some e => (some (Err.commitFailed e),
          startOp :: r.2 ++ [⟨GoContext.todo, DbOpKind.commitTransaction⟩])
      | none => (none, startOp :: r.2 ++ [⟨GoContext.todo, DbOpKind.commitTransaction⟩])

/-- RunMigration from mongodb.go. Reading the payload (ioutil.ReadAll) and
deserializing it (bson.UnmarshalExtJSON) are external-library calls whose
outcomes are passed in: readErr is the read outcome, returned unwrapped on
failure, and parsed is the deserialization result of the payload bytes, with
Except.error msg when the bytes do not parse as a JSON array of command
documents. The chosen executor runs under context.TODO(). -/
def Driver.runMigration (d : Driver) (env : ExecEnv) (readErr : Option DbError)
    (parsed : Except String (List Cmd)) : Option Err × List DbOp :=
  match readErr with
  | some e => (some (Err.readFailed e), [])
  | none =>
    match parsed with
    | Except.error s => (some (Err.parseError s), [])
    | Except.ok cmds =>
      if d.cfg.transactionMode then executeCommandsWithTransaction env cmds
      else executeCommands env GoContext.todo cmds

/-- Number of lock-insert requests in a list of issued operations. -/
def insertCount : List DbOp → Nat
  | [] => 0
  | op :: rest =>
    (match op.kind with
     | DbOpKind.insertLock _ _ => 1
     | _ => 0) + insertCount rest

/-- Sample driver with locking enabled, sequential mode, flag unlocked. -/
def sampleDriver : Driver :=
  { cfg := { databaseName := "testdb"
             migrationsCollection := DefaultMigrationsCollection
             transactionMode := false
             locking := { collectionName := DefaultLockingCollection
                          indexName := DefaultLockIndexName
                          enabled := true } }
    verbose := false
    lockFlag := 0 }

/-- Sample driver in the locked state. -/
def sampleLockedDriver : Driver := { sampleDriver with lockFlag := 1 }

/-- Sample driver with transactional mode enabled. -/
def sampleTxDriver : Driver :=
  { sampleDriver with cfg := { sampleDriver.cfg with transactionMode := true } }

/-- Sample execution environment: command 1 fails, every other command
succeeds, the transaction starts fine, and the commit fails. -/
def sampleEnv : ExecEnv :=
  { runCmd := fun c => if c == 1 then some "command boom" else none
    startErr := none
    commitErr := some "commit boom" }

/-- Helper: executeCommands on a batch whose commands all succeed issues every
command in order and returns nil. -/
theorem executeCommands_all_ok (env : ExecEnv) (ctx : GoContext) (cmds : List Cmd)
    (h : ∀ c ∈ cmds, env.runCmd c = none) :
    executeCommands env ctx cmds =
      (none, cmds.map fun c => ⟨ctx, DbOpKind.runCommand c⟩) := by
  induction cmds with
  | nil => rfl
  | cons c rest ih =>
    have hc : env.runCmd c = none := h c (List.mem_cons_self c rest)
    have hrest := ih fun x hx => h x (List.mem_cons_of_mem c hx)
    simp [executeCommands, hc, hrest]

/-- Helper: executeCommands stops at the first failing command, wraps it into
the command-failure error, and issues exactly the commands up to and including
the failing one. -/
theorem executeCommands_first_fail (env : ExecEnv) (ctx : GoContext)
    (pre : List Cmd) (c : Cmd) (post : List Cmd) (e : DbError)
    (hpre : ∀ x ∈ pre, env.runCmd x = none) (hc : env.runCmd c = some e) :
    executeCommands env ctx (pre ++ c :: post) =
      (some (Err.commandFailed c e),
        (pre ++ [c]).map fun x => ⟨ctx, DbOpKind.runCommand x⟩) := by
  induction pre with
  | nil => simp [executeCommands, hc]
  | cons p rest ih =>
    have hp : env.runCmd p = none := hpre p (List.mem_cons_self p rest)
    have hrest := ih fun x hx => hpre x (List.mem_cons_of_mem p hx)
    simp [executeCommands, hp, hrest]

/-- C3: on a driver with locking enabled and the local flag unlocked, a failing
lock-record insert makes Lock return the fixed ErrDatabaseLocked sentinel with
the driver state (and so the flag) unchanged, and a successful insert makes
Lock return nil with the flag set to locked. -/
theorem lock_insert_failure_and_success (d : Driver) (e : DbError)
    (henabled : d.cfg.locking.enabled = true) (hflag : d.lockFlag = 0) :
    ((d.lock (some e)).ret = some Err.databaseLocked ∧
      (d.lock (some e)).d = d ∧ (d.lock (some e)).d.lockFlag = 0) ∧
    ((d.lock none).ret = none ∧ (d.lock none).d.lockFlag = 1) := by
  simp [Driver.lock, henabled, hflag]

/-- Witness for lock_insert_failure_and_success at the sample driver. -/
theorem lock_insert_failure_and_success_witness :
    sampleDriver.cfg.locking.enabled = true ∧ sampleDriver.lockFlag = 0 ∧
    (((sampleDriver.lock (some "duplicate key")).ret = some Err.databaseLocked ∧
      (sampleDriver.lock (some "duplicate key")).d = sampleDriver ∧
      (sampleDriver.lock (some "duplicate key")).d.lockFlag = 0) ∧
     ((sampleDriver.lock none).ret = none ∧ (sampleDriver.lock none).d.lockFlag = 1)) :=
  ⟨rfl, rfl, lock_insert_failure_and_success sampleDriver "duplicate key" rfl rfl⟩

/-- C4: on a driver with locking enabled and the local flag locked, Unlock
issues one DeleteMany for all lock records matching the fixed lock key; on
delete failure it returns the error with the driver state left locked, and on
delete success it returns nil with the flag set to unlocked. -/
theorem unlock_delete_semantics (d : Driver)
    (henabled : d.cfg.locking.enabled = true) (hflag : d.lockFlag = 1) :
    (∀ r, (d.unlock r).ops =
      [⟨GoContext.withTimeout contextWaitTimeout,
        DbOpKind.deleteLocks d.cfg.locking.collectionName lockKeyUniqueValue⟩]) ∧
    (∀ e, (d.unlock (some e)).ret = some (Err.dbError e) ∧
      (d.unlock (some e)).d = d ∧ (d.unlock (some e)).d.lockFlag = 1) ∧
    ((d.unlock none).ret = none ∧ (d.unlock none).d.lockFlag = 0) := by
  refine ⟨fun r => ?_, fun e => ?_, ?_⟩
  · cases r <;> simp [Driver.unlock, henabled, hflag]
  · simp [Driver.unlock, henabled, hflag]
  · simp [Driver.unlock, henabled, hflag]

/-- Witness for unlock_delete_semantics at the locked sample driver. -/
theorem unlock_delete_semantics_witness :
    sampleLockedDriver.cfg.locking.enabled = true ∧ sampleLockedDriver.lockFlag = 1 ∧
    ((∀ r, (sampleLockedDriver.unlock r).ops =
      [⟨GoContext.withTimeout contextWaitTimeout,
        DbOpKind.deleteLocks sampleLockedDriver.cfg.locking.collectionName
          lockKeyUniqueValue⟩]) ∧
     (∀ e, (sampleLockedDriver.unlock (some e)).ret = some (Err.dbError e) ∧
       (sampleLockedDriver.unlock (some e)).d = sampleLockedDriver ∧
       (sampleLockedDriver.unlock (some e)).d.lockFlag = 1) ∧
     ((sampleLockedDriver.unlock none).ret = none ∧
      (sampleLockedDriver.unlock none).d.lockFlag = 0)) :=
  ⟨rfl, rfl, unlock_delete_semantics sampleLockedDriver rfl rfl⟩

/-- C5: with locking enabled, Lock and Unlock are idempotent through the local
flag: a Lock on an already-locked flag is a database no-op returning nil; two
consecutive Lock calls whose first returns nil issue at most one insert; and a
successful Lock followed by a successful Unlock brings the flag back to
unlocked, so a subsequent Unlock returns nil issuing no delete. -/
theorem lock_unlock_idempotence (d : Driver) (e1 : Option DbError)
    (henabled : d.cfg.locking.enabled = true)
    (hlock : (d.lock e1).ret = none) :
    (d.lockFlag = 1 → d.lock e1 = ⟨none, d, []⟩) ∧
    (∀ e2, insertCount ((d.lock e1).ops ++ ((d.lock e1).d.lock e2).ops) ≤ 1) ∧
    ((d.lock e1).d.unlock none).ret = none ∧
    ((d.lock e1).d.unlock none).d.lockFlag = 0 ∧
    (∀ r, ((d.lock e1).d.unlock none).d.unlock r =
      ⟨none, ((d.lock e1).d.unlock none).d, []⟩) := by
  by_cases hf : d.lockFlag = 1
  · have hd1 : d.lock e1 = ⟨none, d, []⟩ := by
      simp [Driver.lock, henabled, hf]
    refine ⟨fun _ => hd1, fun e2 => ?_, ?_, ?_, fun r => ?_⟩ <;>
      simp [hd1, Driver.lock, Driver.unlock, henabled, hf, insertCount]
  · have he1 : e1 = none := by
      cases e1 with
      | none => rfl
      | some e => simp [Driver.lock, henabled, beq_iff_eq, hf] at hlock
    subst he1
    have hd1 : d.lock none = ⟨none, { d with lockFlag := 1 },
        [⟨GoContext.withTimeout contextWaitTimeout,
          DbOpKind.insertLock d.cfg.locking.collectionName lockKeyUniqueValue⟩]⟩ := by
      simp [Driver.lock, henabled, beq_iff_eq, hf]
    refine ⟨fun h1 => absurd h1 hf, fun e2 => ?_, ?_, ?_, fun r => ?_⟩ <;>
      simp [hd1, Driver.lock, Driver.unlock, henabled, insertCount, hf]

/-- Witness for lock_unlock_idempotence at the sample driver with a successful
insert. -/
theorem lock_unlock_idempotence_witness :
    sampleDriver.cfg.locking.enabled = true ∧
    (sampleDriver.lock none).ret = none ∧
    ((sampleDriver.lockFlag = 1 → sampleDriver.lock none = ⟨none, sampleDriver, []⟩) ∧
     (∀ e2, insertCount ((sampleDriver.lock none).ops ++
        ((sampleDriver.lock none).d.lock e2).ops) ≤ 1) ∧
     ((sampleDriver.lock none).d.unlock none).ret = none ∧
     ((sampleDriver.lock none).d.unlock none).d.lockFlag = 0 ∧
     (∀ r, ((sampleDriver.lock none).d.unlock none).d.unlock r =
       ⟨none, ((sampleDriver.lock none).d.unlock none).d, []⟩)) :=
  ⟨rfl, rfl, lock_unlock_idempotence sampleDriver none rfl rfl⟩

/-- C6: GetVersion returns the NO_VERSION sentinel with dirty false and nil
error when the version collection holds zero documents, a driver error
wrapping the underlying cause on any other read failure, and the stored
document's version and dirty pair verbatim when exactly one document is
present. -/
theorem getVersion_read_semantics (d : Driver) :
    ((d.getVersion (collFindOne [])).version = NoMigrationVersion ∧
     (d.getVersion (collFindOne [])).dirty = false ∧
     (d.getVersion (collFindOne [])).err = none) ∧
    (∀ e, (d.getVersion (FindOutcome.failure e)).err =
      some (Err.versionReadFailed e)) ∧
    (∀ doc, (d.getVersion (collFindOne [doc])).version = uint64OfInt64 doc.version ∧
      (d.getVersion (collFindOne [doc])).dirty = doc.dirty ∧
      (d.getVersion (collFindOne [doc])).err = none) :=
  ⟨⟨rfl, rfl, rfl⟩, fun _ => rfl, fun _ => ⟨rfl, rfl, rfl⟩⟩

/-- Helper: the Go uint64-to-int64-and-back conversion pair performed by
SetVersion and GetVersion is the identity on every value below 2^64. -/
theorem uint64_int64_roundtrip (v : Nat) (hv : v < 2 ^ 64) :
    uint64OfInt64 (int64OfUInt64 v) = v := by
  have h64n : v < 18446744073709551616 := by
    calc v < 2 ^ 64 := hv
    _ = 18446744073709551616 := by norm_num
  have h64 : (2 : Int) ^ 64 = 18446744073709551616 := by norm_num
  have h63 : (2 : Nat) ^ 63 = 9223372036854775808 := by norm_num
  unfold uint64OfInt64 int64OfUInt64
  rw [h64, h63]
  split <;> omega

/-- C7: for every uint64 version (including values at or above 2^63, which pass
through the signed 64-bit bson field) and dirty flag, a SetVersion whose drop
and insert both succeed followed by a GetVersion returns the same version and
dirty pair with nil errors. -/
theorem setVersion_getVersion_roundtrip (d : Driver) (coll : List VersionDoc)
    (v : Nat) (dirty : Bool) (hv : v < 2 ^ 64) :
    (d.setVersion coll v dirty none none).err = none ∧
    (d.getVersion (collFindOne (d.setVersion coll v dirty none none).coll)).version = v ∧
    (d.getVersion (collFindOne (d.setVersion coll v dirty none none).coll)).dirty = dirty ∧
    (d.getVersion (collFindOne (d.setVersion coll v dirty none none).coll)).err = none := by
  refine ⟨rfl, ?_, rfl, rfl⟩
  exact uint64_int64_roundtrip v hv

/-- Witness for setVersion_getVersion_roundtrip at version 2^63 + 5 (above the
signed range) and at the spec's example version 5. -/
theorem setVersion_getVersion_roundtrip_witness :
    ((9223372036854775813 : Nat) < 2 ^ 64 ∧
     ((sampleDriver.setVersion [] 9223372036854775813 false none none).err = none ∧
      (sampleDriver.getVersion (collFindOne
        (sampleDriver.setVersion [] 9223372036854775813 false none none).coll)).version =
        9223372036854775813 ∧
      (sampleDriver.getVersion (collFindOne
        (sampleDriver.setVersion [] 9223372036854775813 false none none).coll)).dirty = false ∧
      (sampleDriver.getVersion (collFindOne
        (sampleDriver.setVersion [] 9223372036854775813 false none none).coll)).err = none)) ∧
    ((5 : Nat) < 2 ^ 64 ∧
     ((sampleDriver.setVersion [] 5 false none none).err = none ∧
      (sampleDriver.getVersion (collFindOne
        (sampleDriver.setVersion [] 5 false none none).coll)).version = 5 ∧
      (sampleDriver.getVersion (collFindOne
        (sampleDriver.setVersion [] 5 false none none).coll)).dirty = false ∧
      (sampleDriver.getVersion (collFindOne
        (sampleDriver.setVersion [] 5 false none none).coll)).err = none)) :=
  ⟨⟨by norm_num,
    setVersion_getVersion_roundtrip sampleDriver [] 9223372036854775813 false (by norm_num)⟩,
   ⟨by norm_num,
    setVersion_getVersion_roundtrip sampleDriver [] 5 false (by norm_num)⟩⟩

/-- C1 counterexample: GetVersion issues its FindOne request under
context.TODO(), an unbounded context, so not every database operation issued
by Lock, Unlock, GetVersion and SetVersion is bounded by the fixed per-call
timeout. -/
theorem getVersion_unbounded_context_counterexample :
    ((sampleDriver.getVersion (collFindOne [])).ops.all fun op =>
      op.ctx == GoContext.withTimeout contextWaitTimeout) = false := by
  decide

/-- C1 (amended): the lock insert of Lock and the lock delete of Unlock are
issued under the fixed, non-configurable contextWaitTimeout of 5 seconds,
while every operation issued by GetVersion and SetVersion runs under the
unbounded context.TODO(), with no timeout. -/
theorem context_timeout_usage (d : Driver) (insertErr deleteErr : Option DbError)
    (findRes : FindOutcome) (coll : List VersionDoc) (v : Nat) (dirty : Bool)
    (dropErr insErr : Option DbError) :
    ((d.lock insertErr).ops.all fun op =>
      op.ctx == GoContext.withTimeout contextWaitTimeout) = true ∧
    ((d.unlock deleteErr).ops.all fun op =>
      op.ctx == GoContext.withTimeout contextWaitTimeout) = true ∧
    ((d.getVersion findRes).ops.all fun op => op.ctx == GoContext.todo) = true ∧
    ((d.setVersion coll v dirty dropErr insErr).ops.all fun op =>
      op.ctx == GoContext.todo) = true ∧
    contextWaitTimeout = 5 * timeSecond := by
  refine ⟨?_, ?_, ?_, ?_, rfl⟩
  · cases insertErr <;> unfold Driver.lock <;> split_ifs <;> simp
  · cases deleteErr <;> unfold Driver.unlock <;> split_ifs <;> simp
  · cases findRes <;> simp [Driver.getVersion]
  · cases dropErr <;> cases insErr <;> simp [Driver.setVersion]

/-- C2: NewDriver rejects an empty database name with ErrNoDatabaseName even
when the client is nil, but performs no nil-client check: with a nil client
and a non-empty database name it reaches the client dereference inside the
mongo library instead of returning an error, contradicting the repository's
own test TestNewDriver_NoClient which expects an error. -/
theorem newDriver_nil_client_unchecked :
    NewDriver true "" [] none = NewDriverResult.err Err.noDatabaseName ∧
    NewDriver true "db" [] none = NewDriverResult.nilClientDeref := by
  refine ⟨rfl, ?_⟩
  decide

/-- C8: in transactional mode, when a command inside the transaction fails,
RunMigration returns that command's failure with no commit (and no abort)
issued after it, the issued operations being exactly the transaction start and
the commands up to and including the failing one; and when every command
succeeds but the commit fails, the returned error is the distinct
commit-failure kind. -/
theorem transactional_failure_semantics (d : Driver) (env : ExecEnv)
    (htm : d.cfg.transactionMode = true) (hstart : env.startErr = none)
    (pre : List Cmd) (c : Cmd) (post : List Cmd) (e : DbError)
    (hpre : ∀ x ∈ pre, env.runCmd x = none) (hc : env.runCmd c = some e)
    (cmds : List Cmd) (hall : ∀ x ∈ cmds, env.runCmd x = none)
    (ce : DbError) (hcommit : env.commitErr = some ce) :
    d.runMigration env none (Except.ok (pre ++ c :: post)) =
      (some (Err.commandFailed c e),
        ⟨GoContext.todo, DbOpKind.startTransaction⟩ ::
          (pre ++ [c]).map (fun x => ⟨GoContext.todo, DbOpKind.runCommand x⟩)) ∧
    (d.runMigration env none (Except.ok cmds)).1 = some (Err.commitFailed ce) := by
  constructor
  · simp [Driver.runMigration, htm, executeCommandsWithTransaction, hstart,
      executeCommands_first_fail env GoContext.todo pre c post e hpre hc]
  · simp [Driver.runMigration, htm, executeCommandsWithTransaction, hstart, hcommit,
      executeCommands_all_ok env GoContext.todo cmds hall]

/-- Witness for transactional_failure_semantics: batch 0,1,2 where command 1
fails, and batch 0,2 where every command succeeds and the commit fails. -/
theorem transactional_failure_semantics_witness :
    sampleTxDriver.cfg.transactionMode = true ∧
    sampleEnv.startErr = none ∧
    sampleEnv.runCmd 0 = none ∧
    sampleEnv.runCmd 1 = some "command boom" ∧
    sampleEnv.runCmd 2 = none ∧
    sampleEnv.commitErr = some "commit boom" ∧
    (sampleTxDriver.runMigration sampleEnv none (Except.ok ([0] ++ 1 :: [2])) =
      (some (Err.commandFailed 1 "command boom"),
        ⟨GoContext.todo, DbOpKind.startTransaction⟩ ::
          ([0] ++ [1]).map (fun x => ⟨GoContext.todo, DbOpKind.runCommand x⟩)) ∧
     (sampleTxDriver.runMigration sampleEnv none (Except.ok [0, 2])).1 =
       some (Err.commitFailed "commit boom")) :=
  ⟨rfl, rfl, rfl, rfl, rfl, rfl,
    transactional_failure_semantics sampleTxDriver sampleEnv rfl rfl
      [0] 1 [2] "command boom" (by decide) rfl [0, 2] (by decide)
      "commit boom" rfl⟩

/-- C9: in sequential mode, RunMigration executes the parsed commands strictly
in the given order, stops at the first failing command, returns the driver
error naming that command and the underlying cause, and issues exactly the
run-command requests for the commands up to and including the failing one (so
nothing after it runs and nothing already executed is rolled back); when every
command succeeds it issues exactly the whole batch in order. -/
theorem sequential_execution_semantics (d : Driver) (env : ExecEnv)
    (htm : d.cfg.transactionMode = false)
    (pre : List Cmd) (c : Cmd) (post : List Cmd) (e : DbError)
    (hpre : ∀ x ∈ pre, env.runCmd x = none) (hc : env.runCmd c = some e)
    (cmds : List Cmd) (hall : ∀ x ∈ cmds, env.runCmd x = none) :
    d.runMigration env none (Except.ok (pre ++ c :: post)) =
      (some (Err.commandFailed c e),
        (pre ++ [c]).map (fun x => ⟨GoContext.todo, DbOpKind.runCommand x⟩)) ∧
    d.runMigration env none (Except.ok cmds) =
      (none, cmds.map (fun x => ⟨GoContext.todo, DbOpKind.runCommand x⟩)) := by
  constructor
  · simp [Driver.runMigration, htm,
      executeCommands_first_fail env GoContext.todo pre c post e hpre hc]
  · simp [Driver.runMigration, htm,
      executeCommands_all_ok env GoContext.todo cmds hall]

/-- Witness for sequential_execution_semantics: the one-command batch of the
spec's example, failing, and the batch 0,2 succeeding. -/
theorem sequential_execution_semantics_witness :
    sampleDriver.cfg.transactionMode = false ∧
    sampleEnv.runCmd 1 = some "command boom" ∧
    sampleEnv.runCmd 0 = none ∧
    sampleEnv.runCmd 2 = none ∧
    (sampleDriver.runMigration sampleEnv none (Except.ok ([] ++ 1 :: [])) =
      (some (Err.commandFailed 1 "command boom"),
        ([] ++ [1]).map (fun x => ⟨GoContext.todo, DbOpKind.runCommand x⟩)) ∧
     sampleDriver.runMigration sampleEnv none (Except.ok [0, 2]) =
      (none, [0, 2].map (fun x => ⟨GoContext.todo, DbOpKind.runCommand x⟩))) :=
  ⟨rfl, rfl, rfl, rfl,
    sequential_execution_semantics sampleDriver sampleEnv rfl
      [] 1 [] "command boom" (by decide) rfl [0, 2] (by decide)⟩

/-- C10: when the payload bytes do not deserialize as a JSON array of command
documents, RunMigration returns the parse error and issues no database
operation at all, whatever the driver's execution mode. -/
theorem runMigration_parse_error_no_db (d : Driver) (env : ExecEnv) (s : String) :
    d.runMigration env none (Except.error s) = (some (Err.parseError s), []) :=
  rfl

end LightMigrateMongo
